import Mathlib

/-!
Verification development for the RDP display switcher daemon
(`src/daemon/rdp-display-manager.py`).

The daemon watches for incoming RDP/VNC connections, disables a configured
secondary display while a remote session is active, and restores the saved
display topology afterwards.  This file gives a shallow embedding of the
daemon's pure control logic: Python dicts parsed from the external tool's
JSON are modelled as structured values, every external subprocess call is
an oracle parameter (its outcome is an input to the Lean function), and the
on-disk state file is an explicit field of the model state.
-/

namespace RdpDisplay

/-! ### Python string-primitive semantics

The daemon scrapes text output of `ss` and `kscreen-doctor -o`.  The helpers
below reproduce the exact Python primitives used: `str.strip`, `str.split`,
`str.split('\n')`, `str.startswith`, substring `in`, and the specific
`re` patterns that appear in the source.
-/

/-- Python's default whitespace set used by `str.strip` / `str.split`
(space, tab, newline, carriage return, vertical tab, form feed). -/
def pyIsSpace (c : Char) : Bool :=
  c = ' ' || c = '\t' || c = '\n' || c = '\r' || c = '\x0b' || c = '\x0c'

/-- Python `str.strip()` on a character list. -/
def pyStrip (l : List Char) : List Char :=
  ((l.dropWhile pyIsSpace).reverse.dropWhile pyIsSpace).reverse

/-- Python `str.split('\n')`: split at every newline, keeping empty pieces. -/
def splitOnNL : List Char → List (List Char)
  | [] => [[]]
  | c :: rest =>
    if c = '\n' then [] :: splitOnNL rest
    else
      match splitOnNL rest with
      | [] => [[c]]
      | s :: ss => (c :: s) :: ss

/-- Accumulator loop for Python `str.split()`: `w` holds the reversed
current word. -/
def pySplitWSAux : List Char → List Char → List (List Char)
  | [], w => if w.isEmpty then [] else [w.reverse]
  | c :: rest, w =>
    if pyIsSpace c then
      if w.isEmpty then pySplitWSAux rest []
      else w.reverse :: pySplitWSAux rest []
    else pySplitWSAux rest (c :: w)

/-- Python `str.split()` with no argument: split on whitespace runs,
producing no empty fields. -/
def pySplitWS (l : List Char) : List (List Char) := pySplitWSAux l []

/-- Literal-match helper: `hasPref pat l` is true when `pat` is an initial
segment of `l` (used for Python `startswith` and the literal parts of the
source's regexes). -/
def hasPref : List Char → List Char → Bool
  | [], _ => true
  | _ :: _, [] => false
  | c :: cs, d :: ds => c = d && hasPref cs ds

/-- Python substring test `pat in l`. -/
def containsSub (pat : List Char) : List Char → Bool
  | [] => hasPref pat []
  | c :: rest => hasPref pat (c :: rest) || containsSub pat rest

/-- Match a literal at the head of the input; on success return the rest. -/
def dropLit : List Char → List Char → Option (List Char)
  | [], l => some l
  | _ :: _, [] => none
  | c :: cs, d :: ds => if c = d then dropLit cs ds else none

/-- Decimal digits to a natural number, as Python `int` on a digit string. -/
def digitsToNat (l : List Char) : Nat :=
  l.foldl (fun n c => n * 10 + (c.toNat - '0'.toNat)) 0

/-- Python `str.startswith`. -/
def pyStartsWith (s pat : String) : Bool := hasPref pat.toList s.toList

/-- Python substring containment `pat in s`. -/
def pyContains (s pat : String) : Bool := containsSub pat.toList s.toList

/-! ### The source's `re` patterns

Every character class adjacent to the next element of each pattern below is
disjoint from it (digits vs `x`/`@`/`,`/whitespace, whitespace vs
non-whitespace, `[0-9.]` vs `*`), so Python's leftmost greedy matching with
backtracking coincides with plain maximal-munch matching, which is what the
matchers implement.  `search` tries the anchored matcher at every start
position from the left, as `re.search` does.
-/

/-- Character class `[0-9;]` of the ANSI-escape pattern. -/
def isAnsiBody (c : Char) : Bool := c.isDigit || c = ';'

/-- Character class `[A-Za-z]`. -/
def isAlphaAZ (c : Char) : Bool := ('A' ≤ c && c ≤ 'Z') || ('a' ≤ c && c ≤ 'z')

/-- Anchored match of the pattern `\x1b\[[0-9;]*[A-Za-z]` (the source's ANSI
escape-sequence pattern); returns the total match length. -/
def matchAnsiAt : List Char → Option Nat
  | '\x1b' :: '[' :: rest =>
    let bodyLen := (rest.takeWhile isAnsiBody).length
    match rest.drop bodyLen with
    | c :: _ => if isAlphaAZ c then some (2 + bodyLen + 1) else none
    | [] => none
  | _ => none

/-- Scanning loop for the ANSI-escape removal.  The fuel argument (always
started at the list length) only makes the recursion structural: every
step consumes at least one character, so the fuel never runs out before
the input does. -/
def ansiStripGo : Nat → List Char → List Char
  | 0, l => l
  | _ + 1, [] => []
  | fuel + 1, c :: rest =>
    match matchAnsiAt (c :: rest) with
    | some k => ansiStripGo fuel (rest.drop (k - 1))
    | none => c :: ansiStripGo fuel rest

/-- `re.sub(r"\x1b\[[0-9;]*[A-Za-z]", "", line)`: remove every ANSI escape
sequence, scanning left to right. -/
def ansiStrip (l : List Char) : List Char := ansiStripGo l.length l

/-- The source's `_clean_line`: strip ANSI escapes, drop NUL characters,
then `strip()`. -/
def cleanLine (s : String) : String :=
  String.mk (pyStrip ((ansiStrip s.toList).filter (fun c => c ≠ '\x00')))

/-- Python `refresh.split('.')[0]`. -/
def splitDot (s : String) : String :=
  String.mk (s.toList.takeWhile (fun c => c ≠ '.'))

/-- Anchored match of `Output:\s+(\d+)\s+(\S+)`; returns the two groups
(the output index as parsed by `int`, and the output name). -/
def matchOutputAt (l : List Char) : Option (Nat × String) :=
  match dropLit "Output:".toList l with
  | none => none
  | some r1 =>
    let sp1 := r1.takeWhile pyIsSpace
    if sp1.length = 0 then none else
    let r2 := r1.drop sp1.length
    let ds := r2.takeWhile Char.isDigit
    if ds.length = 0 then none else
    let r3 := r2.drop ds.length
    let sp2 := r3.takeWhile pyIsSpace
    if sp2.length = 0 then none else
    let r4 := r3.drop sp2.length
    let nm := r4.takeWhile (fun c => !(pyIsSpace c))
    if nm.length = 0 then none else
    some (digitsToNat ds, String.mk nm)

/-- `re.search` for the `Output:` header pattern. -/
def searchOutput : List Char → Option (Nat × String)
  | [] => none
  | c :: rest =>
    match matchOutputAt (c :: rest) with
    | some r => some r
    | none => searchOutput rest

/-- Anchored match of `(\d+x\d+)@([\d.]+)\*`; returns the two groups
(resolution string, refresh-rate string). -/
def matchModeAt (l : List Char) : Option (String × String) :=
  let d1 := l.takeWhile Char.isDigit
  if d1.length = 0 then none else
  match l.drop d1.length with
  | 'x' :: r2 =>
    let d2 := r2.takeWhile Char.isDigit
    if d2.length = 0 then none else
    (match r2.drop d2.length with
     | '@' :: r3 =>
       let rr := r3.takeWhile (fun c => c.isDigit || c = '.')
       if rr.length = 0 then none else
       (match r3.drop rr.length with
        | '*' :: _ => some (String.mk (d1 ++ 'x' :: d2), String.mk rr)
        | _ => none)
     | _ => none)
  | _ => none

/-- `re.search` for the active-mode pattern. -/
def searchMode : List Char → Option (String × String)
  | [] => none
  | c :: rest =>
    match matchModeAt (c :: rest) with
    | some r => some r
    | none => searchMode rest

/-- Anchored match of `Geometry:\s+\d+,\d+\s+(\d+x\d+)`; returns the
resolution group. -/
def matchGeomAt (l : List Char) : Option String :=
  match dropLit "Geometry:".toList l with
  | none => none
  | some r1 =>
    let sp1 := r1.takeWhile pyIsSpace
    if sp1.length = 0 then none else
    let r2 := r1.drop sp1.length
    let d1 := r2.takeWhile Char.isDigit
    if d1.length = 0 then none else
    (match r2.drop d1.length with
     | ',' :: r3 =>
       let d2 := r3.takeWhile Char.isDigit
       if d2.length = 0 then none else
       let r4 := r3.drop d2.length
       let sp2 := r4.takeWhile pyIsSpace
       if sp2.length = 0 then none else
       let r5 := r4.drop sp2.length
       let g1 := r5.takeWhile Char.isDigit
       if g1.length = 0 then none else
       (match r5.drop g1.length with
        | 'x' :: r6 =>
          let g2 := r6.takeWhile Char.isDigit
          if g2.length = 0 then none else
          some (String.mk (g1 ++ 'x' :: g2))
        | _ => none)
     | _ => none)

/-- `re.search` for the `Geometry:` pattern. -/
def searchGeom : List Char → Option String
  | [] => none
  | c :: rest =>
    match matchGeomAt (c :: rest) with
    | some r => some r
    | none => searchGeom rest

/-! ### Data model: the `kscreen-doctor -j` JSON topology

`get_current_config` parses the tool's JSON into a Python dict.  The dicts
the daemon actually reads are modelled structurally: an output has a `name`,
an optional `pos` (`{}` — falsy in Python — is `none`) and an optional
`currentMode`.  The whole query result is `Option KTopology`: `none` stands
for the empty dict `{}` that `get_current_config` returns on every failure
path (and that Python treats as falsy), `some t` for a non-empty parsed
document whose `outputs` entry is `t.outputs`.
-/

/-- An output's `pos` entry (`{"x": …, "y": …}`). -/
structure KPos where
  x : Int
  y : Int
deriving DecidableEq

/-- An output's `currentMode` entry.  `refreshRate` is a JSON number,
modelled as a rational. -/
structure KMode where
  width : Nat
  height : Nat
  refreshRate : ℚ
deriving DecidableEq

/-- One entry of the JSON document's `outputs` array. -/
structure KOutput where
  name : String
  pos : Option KPos
  currentMode : Option KMode
deriving DecidableEq

/-- The parsed `kscreen-doctor -j` document, reduced to the only key the
daemon reads (`outputs`; a missing key reads as `[]`). -/
structure KTopology where
  outputs : List KOutput
deriving DecidableEq

/-- Python `int()` applied to a (real-valued) refresh rate: truncation
toward zero. -/
def pyInt (q : ℚ) : Int := if 0 ≤ q then ⌊q⌋ else ⌈q⌉

/-! ### DisplayConfig

State of a `DisplayConfig` object together with the durable state file.
`saved` models `self.saved_config : Optional[dict]`: `none` is Python
`None`, `some none` is the empty dict `{}` (assigned by a failed capture),
`some (some t)` a truthy captured document.  `fileP` models
`STATE_FILE`: `none` when absent; `some t` when present with
`saved_config` = `t` (the file also records `secondary_output` and a
timestamp, but `_load_from_disk` never reads those back, so they are not
modelled).  `_save_to_disk` only ever writes a truthy `saved_config`, so a
file written by the daemon always carries a topology.
-/

/-- DisplayConfig object state plus the durable state file. -/
structure DCState where
  secondary_output : String
  saved : Option (Option KTopology)
  fileP : Option KTopology
deriving DecidableEq

namespace DisplayConfig

/-- Python truthiness of `self.saved_config` (`None` and `{}` are falsy). -/
def savedTruthy : Option (Option KTopology) → Bool
  | some (some _) => true
  | _ => false

/-- `save_current_config`: assign `self.saved_config = get_current_config()`
(the capture outcome is the oracle argument), and iff the capture is truthy
write the state file and return `True`.  Returns (result, new state). -/
def save_current_config (d : DCState) (capture : Option KTopology) :
    Bool × DCState :=
  match capture with
  | some t => (true, { d with saved := some (some t), fileP := some t })
  | none => (false, { d with saved := some none })

/-- `_load_from_disk`: if the state file exists, load its `saved_config`
into memory and report whether it is non-`None`.  Returns (result, new
state). -/
def load_from_disk (d : DCState) : Bool × DCState :=
  match d.fileP with
  | some t => (true, { d with saved := some (some t) })
  | none => (false, d)

/-- Failure conditions of `restore_config`, one per `return False` branch
(the source distinguishes them by log message; §7 of the spec names them). -/
inductive RestoreErr where
  | noSavedTopology
  | outputNotFound
  | toolFailed
deriving DecidableEq

/-- Result of `restore_config`: the returned boolean, the failure condition
when it failed, the `kscreen-doctor` invocations issued (each one the list
of directives of a single subprocess call), and the post-state. -/
structure RestoreResult where
  ok : Bool
  err : Option RestoreErr
  calls : List (List String)
  post : DCState
deriving DecidableEq

/-- The directive list `restore_config` builds for the saved secondary
output: enable, then (if a position was saved) reposition, then (if a mode
was saved) set `WxH@int(refresh)`. -/
def restoreCommands (sec : String) (o : KOutput) : List String :=
  let c1 := ["output." ++ sec ++ ".enable"]
  let c2 :=
    match o.pos with
    | some p =>
      c1 ++ ["output." ++ sec ++ ".position." ++ toString p.x ++ "," ++
             toString p.y]
    | none => c1
  match o.currentMode with
  | some m =>
    c2 ++ ["output." ++ sec ++ ".mode." ++ toString m.width ++ "x" ++
           toString m.height ++ "@" ++ toString (pyInt m.refreshRate)]
  | none => c2

/-- Tail of `restore_config` once a truthy saved document `t` is in memory:
find the secondary output in `t.outputs` (first match wins), build the
directive list, issue the single tool invocation (`toolOk` is the oracle for
its exit status), and on success delete the state file and clear the
in-memory saved config. -/
def restoreStage2 (d : DCState) (t : KTopology) (toolOk : Bool) :
    RestoreResult :=
  match t.outputs.find? (fun o => o.name == d.secondary_output) with
  | none => ⟨false, some RestoreErr.outputNotFound, [], d⟩
  | some o =>
    let cmds := restoreCommands d.secondary_output o
    if toolOk then
      ⟨true, none, [cmds], { d with fileP := none, saved := none }⟩
    else
      ⟨false, some RestoreErr.toolFailed, [cmds], d⟩

/-- `restore_config`: if the in-memory saved config is falsy, try to load
the state file, failing with `noSavedTopology` (and no tool invocation)
when there is none; then restore from the (now truthy) saved document. -/
def restore_config (d : DCState) (toolOk : Bool) : RestoreResult :=
  match d.saved with
  | some (some t) => restoreStage2 d t toolOk
  | _ =>
    match d.fileP with
    | some t => restoreStage2 { d with saved := some (some t) } t toolOk
    | none => ⟨false, some RestoreErr.noSavedTopology, [], d⟩

end DisplayConfig

/-! ### ConnectionMonitor

`_check_port` runs `ss -tn state established '( sport = :PORT )'` and parses
its output; the oracle argument is `none` when the call raised
(`TimeoutExpired` / `FileNotFoundError` — both caught) and `some stdout`
otherwise.
-/

/-- One parsed `ss` row: local and remote `address:port` strings. -/
structure ConnEndpoint where
  loc : String
  remote : String
deriving DecidableEq

/-- The snapshot dict built by `check_connections`. -/
structure ConnSnapshot where
  rdp : List ConnEndpoint
  vnc : List ConnEndpoint
  total : Nat
deriving DecidableEq

namespace ConnectionMonitor

/-- Parse one non-header `ss` output line: skipped when blank; otherwise
split on whitespace and, when at least 4 fields are present, record field 3
as local and field 4 (or `"unknown"`) as remote. -/
def parse_ss_line (l : List Char) : Option ConnEndpoint :=
  if (pyStrip l).isEmpty then none
  else
    let parts := pySplitWS l
    if 4 ≤ parts.length then
      some { loc := String.mk ((parts.get? 3).getD []),
             remote := if 4 < parts.length then String.mk ((parts.get? 4).getD [])
                       else "unknown" }
    else none

/-- `_check_port`: an exception yields `[]`; otherwise strip the output,
split into lines, skip the header line, and collect the parsed rows in
order. -/
def check_port (res : Option String) : List ConnEndpoint :=
  match res with
  | none => []
  | some out =>
    ((splitOnNL (pyStrip out.toList)).drop 1).foldl
      (fun acc l =>
        match parse_ss_line l with
        | some e => acc ++ [e]
        | none => acc) []

/-- `check_connections`: extend the `rdp` list port by port, then the `vnc`
list, then set `total` to the sum of the lengths.  `lookup` is the per-port
oracle for the `ss` subprocess. -/
def check_connections (lookup : Nat → Option String)
    (rdp_ports vnc_ports : List Nat) : ConnSnapshot :=
  let r := rdp_ports.foldl (fun acc p => acc ++ check_port (lookup p)) []
  let v := vnc_ports.foldl (fun acc p => acc ++ check_port (lookup p)) []
  { rdp := r, vnc := v, total := r.length + v.length }

/-- `has_remote_connection`: `check_connections()["total"] > 0`. -/
def has_remote_connection (lookup : Nat → Option String)
    (rdp_ports vnc_ports : List Nat) : Bool :=
  (check_connections lookup rdp_ports vnc_ports).total > 0

end ConnectionMonitor

/-! ### The service state machine

`RdpDisplaySwitcherService` owns the daemon state.  Each handler becomes a
function from the service state (plus oracle arguments for the external
calls it makes) to a new state and an event trace.  Trace events record the
DBus signals emitted, the config save, and which side-effecting helpers
were invoked — `calledSaveConfig`, the session terminations,
`calledDisableSecondary`, `calledRestoreConfig`, and every `kscreen-doctor`
invocation issued by a restore.
-/

/-- The `State` enum of the daemon. -/
inductive State where
  | IDLE
  | DETECTED
  | SWITCHING
  | REMOTE_ACTIVE
  | RESTORING
  | DISABLED
deriving DecidableEq

/-- The persisted configuration dict written by `_save_config`. -/
structure Config where
  enabled : Bool
  secondary_output : String
  rdp_ports : List Nat
  vnc_ports : List Nat
deriving DecidableEq

/-- Observable events of a handler run: DBus signals, the config-file
write, and invocation markers for the side-effecting helpers. -/
inductive Ev where
  | stateChanged (st : State)
  | enabledChanged (b : Bool)
  | remoteModeChanged (b : Bool)
  | configSaved
  | calledSaveConfig
  | calledTerminateRdp
  | calledTerminateVnc
  | calledDisableSecondary
  | calledRestoreConfig
  | toolInvoke (cmds : List String)
deriving DecidableEq

/-- Full service state: the state-machine state, the enabled flag, the
`DisplayConfig` (with the durable file), the monitor's port lists, the
persisted config file, and a ghost flag `pending` that is set exactly when
a topology save succeeds (state file written) and cleared exactly when a
restore succeeds (state file deleted). -/
structure Svc where
  state : State
  enabled : Bool
  dc : DCState
  rdp_ports : List Nat
  vnc_ports : List Nat
  cfgFile : Option Config
  pending : Bool
deriving DecidableEq

namespace Service

/-- `IsRemoteActive`: the daemon's own report of whether it is in remote
mode (i.e. believes the secondary output is disabled and not yet
restored). -/
def IsRemoteActive (s : Svc) : Bool := s.state == State.REMOTE_ACTIVE

/-- `_restore_displays`: transition to `RESTORING`, call `restore_config`
(success or failure only logged), transition to `IDLE`, emit
`RemoteModeChanged(False)`. -/
def restore_displays (s : Svc) (toolOk : Bool) : Svc × List Ev :=
  let s1 : Svc := { s with state := State.RESTORING }
  let r := DisplayConfig.restore_config s1.dc toolOk
  let s2 : Svc := { s1 with dc := r.post,
                            pending := if r.ok then false else s1.pending }
  let s3 : Svc := { s2 with state := State.IDLE }
  (s3, [Ev.stateChanged State.RESTORING, Ev.calledRestoreConfig] ++
        r.calls.map Ev.toolInvoke ++
        [Ev.stateChanged State.IDLE, Ev.remoteModeChanged false])

/-- `_switch_to_remote_mode`: transition to `SWITCHING`; save the current
config (capture outcome is the oracle), aborting to `IDLE` on failure;
terminate RDP and VNC sessions; disable the secondary output (`disableOk`
oracle), landing in `REMOTE_ACTIVE` with `RemoteModeChanged(True)` on
success and back in `IDLE` on failure. -/
def switch_to_remote_mode (s : Svc) (capture : Option KTopology)
    (disableOk : Bool) : Svc × List Ev :=
  let s1 : Svc := { s with state := State.SWITCHING }
  let ev1 := [Ev.stateChanged State.SWITCHING, Ev.calledSaveConfig]
  let r := DisplayConfig.save_current_config s1.dc capture
  let s2 : Svc := { s1 with dc := r.2,
                            pending := if r.1 then true else s1.pending }
  if r.1 then
    let ev2 := ev1 ++ [Ev.calledTerminateRdp, Ev.calledTerminateVnc,
                       Ev.calledDisableSecondary]
    if disableOk then
      ({ s2 with state := State.REMOTE_ACTIVE },
       ev2 ++ [Ev.stateChanged State.REMOTE_ACTIVE,
               Ev.remoteModeChanged true])
    else
      ({ s2 with state := State.IDLE },
       ev2 ++ [Ev.stateChanged State.IDLE])
  else
    ({ s2 with state := State.IDLE }, ev1 ++ [Ev.stateChanged State.IDLE])

/-- `_on_debounce_complete`: a no-op unless still in `DETECTED`; re-check
the live connection (`hasConn` oracle) and either run the switch sequence
or fall back to `IDLE`.  The final `Bool` is the GLib return value (`False`
= do not repeat the timer). -/
def on_debounce_complete (s : Svc) (hasConn : Bool)
    (capture : Option KTopology) (disableOk : Bool) :
    Svc × List Ev × Bool :=
  if s.state ≠ State.DETECTED then (s, [], false)
  else if hasConn then
    let r := switch_to_remote_mode s capture disableOk
    (r.1, r.2, false)
  else
    ({ s with state := State.IDLE }, [Ev.stateChanged State.IDLE], false)

/-- `_check_connections` (one poll tick): a no-op when disabled; in `IDLE`
with a connection present, transition to `DETECTED` (arming the debounce
timer); in `REMOTE_ACTIVE` with no connection, transition to `RESTORING`
and run the restore sequence. -/
def check_connections (s : Svc) (hasConn : Bool) (toolOk : Bool) :
    Svc × List Ev :=
  if !s.enabled || s.state == State.DISABLED then (s, [])
  else if s.state == State.IDLE && hasConn then
    ({ s with state := State.DETECTED }, [Ev.stateChanged State.DETECTED])
  else if s.state == State.REMOTE_ACTIVE && !hasConn then
    let r := restore_displays { s with state := State.RESTORING } toolOk
    (r.1, Ev.stateChanged State.RESTORING :: r.2)
  else (s, [])

/-- `SetEnabled`: set the flag, transition to `DISABLED` or `IDLE`
(unconditionally, from any state), save the config, emit
`EnabledChanged`. -/
def SetEnabled (s : Svc) (b : Bool) : Svc × List Ev :=
  let ns := if b then State.IDLE else State.DISABLED
  let s1 : Svc := { s with enabled := b, state := ns }
  let s2 : Svc := { s1 with cfgFile := some ⟨s1.enabled,
                      s1.dc.secondary_output, s1.rdp_ports, s1.vnc_ports⟩ }
  (s2, [Ev.stateChanged ns, Ev.configSaved, Ev.enabledChanged b])

/-- `SwitchNow`: manual switch, a no-op unless in `IDLE`. -/
def SwitchNow (s : Svc) (capture : Option KTopology) (disableOk : Bool) :
    Svc × List Ev :=
  if s.state = State.IDLE then switch_to_remote_mode s capture disableOk
  else (s, [])

/-- `RestoreNow`: manual restore, a no-op unless in `REMOTE_ACTIVE`. -/
def RestoreNow (s : Svc) (toolOk : Bool) : Svc × List Ev :=
  if s.state = State.REMOTE_ACTIVE then restore_displays s toolOk
  else (s, [])

end Service

/-! ### Runs of the controller

An `Op` is one serialized entry into the controller: a poll tick, a
debounce-timer fire, a manual switch/restore, or an enable toggle, each
carrying the outcomes of the external calls it may make.  `run` folds a
list of operations from the daemon's initial state (fresh start: `IDLE`,
enabled, nothing saved, no state file).
-/

/-- One serialized controller operation with its external-call oracles. -/
inductive Op where
  | pollTick (hasConn : Bool) (toolOk : Bool)
  | debounceFire (hasConn : Bool) (capture : Option KTopology)
      (disableOk : Bool)
  | switchNow (capture : Option KTopology) (disableOk : Bool)
  | restoreNow (toolOk : Bool)
  | setEnabled (b : Bool)

/-- State reached by one controller operation. -/
def step (s : Svc) : Op → Svc
  | Op.pollTick h t => (Service.check_connections s h t).1
  | Op.debounceFire h c d => (Service.on_debounce_complete s h c d).1
  | Op.switchNow c d => (Service.SwitchNow s c d).1
  | Op.restoreNow t => (Service.RestoreNow s t).1
  | Op.setEnabled b => (Service.SetEnabled s b).1

/-- Initial daemon state on a fresh start (no crash-recovery file). -/
def init : Svc :=
  { state := State.IDLE, enabled := true,
    dc := { secondary_output := "HDMI-A-1", saved := none, fileP := none },
    rdp_ports := [3389], vnc_ports := [5900, 5901, 5902],
    cfgFile := none, pending := false }

/-- Fold a list of controller operations from a given state. -/
def runFrom (s : Svc) (ops : List Op) : Svc := ops.foldl step s

/-- State after a sequence of controller operations from the initial
state. -/
def run (ops : List Op) : Svc := runFrom init ops

/-! ### The `GetDisplays` parser

`GetDisplays` runs `kscreen-doctor -o` and folds over its output lines,
building one record per `Output:` header.  The embedding takes the
`splitlines()` result of the tool's stdout and returns the list of records
(the Python function then JSON-serializes them).
-/

/-- One record of the display list built by `GetDisplays`. -/
structure DisplayEntry where
  index : Nat
  name : String
  enabled : Bool
  resolution : String
  refreshRate : String
  primary : Bool
deriving DecidableEq

/-- The loop body applied to a cleaned, non-empty, non-header line while a
current record exists: detect `enabled`/`disabled`, the `priority 1`
marker, the active-mode marker (only on lines containing `Modes:` or `@`),
and the `Geometry:` resolution fallback (only when no resolution was set
yet). -/
def updateDisplay (d : DisplayEntry) (ls : String) : DisplayEntry :=
  let d1 :=
    if ls = "enabled" then { d with enabled := true }
    else if ls = "disabled" then { d with enabled := false }
    else d
  let d2 := if pyStartsWith ls "priority 1" then { d1 with primary := true }
            else d1
  let d3 :=
    if pyContains ls "Modes:" || pyContains ls "@" then
      match searchMode ls.toList with
      | some g =>
        { d2 with resolution := g.1, refreshRate := splitDot g.2 }
      | none => d2
    else d2
  if pyStartsWith ls "Geometry:" then
    match searchGeom ls.toList with
    | some res => if d3.resolution = "" then { d3 with resolution := res }
                  else d3
    | none => d3
  else d3

/-- The `GetDisplays` line loop: clean each line, skip blanks, start a new
record (with `enabled` defaulting to true, empty resolution/refresh, and
`primary` false) at each `Output:` header — flushing the previous record —
and otherwise update the current record. -/
def getDisplaysLoop : List String → Option DisplayEntry →
    List DisplayEntry → List DisplayEntry
  | [], cur, acc =>
    (match cur with
     | some d => acc ++ [d]
     | none => acc)
  | l :: rest, cur, acc =>
    let ls := cleanLine l
    if ls = "" then getDisplaysLoop rest cur acc
    else
      match searchOutput ls.toList with
      | some g =>
        let acc2 :=
          match cur with
          | some d => acc ++ [d]
          | none => acc
        getDisplaysLoop rest
          (some ⟨g.1, g.2, true, "", "", false⟩) acc2
      | none =>
        match cur with
        | some d => getDisplaysLoop rest (some (updateDisplay d ls)) acc
        | none => getDisplaysLoop rest cur acc

/-- `GetDisplays` on the `splitlines()` output of a successful
`kscreen-doctor -o` run. -/
def GetDisplays (lines : List String) : List DisplayEntry :=
  getDisplaysLoop lines none []

/-- The `GetDisplays` loop restricted to one output's block: the fold of
the per-line update over the lines between the output's header and the
next header (or the end of the listing), skipping lines that clean to
blank. -/
def blockFold (d : DisplayEntry) (B : List String) : DisplayEntry :=
  B.foldl
    (fun d l => if cleanLine l = "" then d else updateDisplay d (cleanLine l))
    d

/-- The file-presence invariant relating the durable state file to the
ghost `pending` flag. -/
def Inv (s : Svc) : Prop := s.dc.fileP.isSome = s.pending

/-! ## Concrete example states used by the witnesses -/

/-- Example captured topology: primary `eDP-1` and secondary `HDMI-A-1`
above it, both with saved positions and modes. -/
def c2Topo : KTopology :=
  ⟨[⟨"eDP-1", some ⟨0, 0⟩, some ⟨2560, 1440, 165⟩⟩,
    ⟨"HDMI-A-1", some ⟨0, -1080⟩, some ⟨1920, 1080, 60⟩⟩]⟩

/-- The secondary output entry of `c2Topo`. -/
def c2Out : KOutput := ⟨"HDMI-A-1", some ⟨0, -1080⟩, some ⟨1920, 1080, 60⟩⟩

/-- Example saved topology for the C4 witness (only the secondary). -/
def c4Topo : KTopology := ⟨[⟨"HDMI-A-1", some ⟨0, -1080⟩, some ⟨1920, 1080, 60⟩⟩]⟩

/-- Example service state for the C4 witness: in `REMOTE_ACTIVE` with the
topology saved in memory and on disk. -/
def c4Svc : Svc :=
  { state := State.REMOTE_ACTIVE, enabled := true,
    dc := { secondary_output := "HDMI-A-1", saved := some (some c4Topo),
            fileP := some c4Topo },
    rdp_ports := [3389], vnc_ports := [5900, 5901, 5902],
    cfgFile := none, pending := true }

/-- Example service state for the C5 witness: in `DETECTED` awaiting the
debounce. -/
def c5Svc : Svc :=
  { state := State.DETECTED, enabled := true,
    dc := { secondary_output := "HDMI-A-1", saved := none, fileP := none },
    rdp_ports := [3389], vnc_ports := [5900, 5901, 5902],
    cfgFile := none, pending := false }

/-! ## Helper lemmas -/

theorem restoreStage2_fileP (d : DCState) (t : KTopology) (tk : Bool) :
    (DisplayConfig.restoreStage2 d t tk).post.fileP =
      (if (DisplayConfig.restoreStage2 d t tk).ok then none else d.fileP) := by
  unfold DisplayConfig.restoreStage2
  cases hf : t.outputs.find? (fun o => o.name == d.secondary_output) with
  | none => simp
  | some o => cases tk <;> simp

theorem restore_config_fileP (d : DCState) (tk : Bool) :
    (DisplayConfig.restore_config d tk).post.fileP =
      (if (DisplayConfig.restore_config d tk).ok then none else d.fileP) := by
  obtain ⟨sec, saved, fileP⟩ := d
  rcases saved with _ | os
  · rcases fileP with _ | t
    · simp [DisplayConfig.restore_config]
    · simpa [DisplayConfig.restore_config] using
        restoreStage2_fileP ⟨sec, some (some t), some t⟩ t tk
  · rcases os with _ | t
    · rcases fileP with _ | t
      · simp [DisplayConfig.restore_config]
      · simpa [DisplayConfig.restore_config] using
          restoreStage2_fileP ⟨sec, some (some t), some t⟩ t tk
    · simpa [DisplayConfig.restore_config] using
        restoreStage2_fileP ⟨sec, some (some t), fileP⟩ t tk

theorem inv_restore_displays (s : Svc) (tk : Bool) (h : Inv s) :
    Inv (Service.restore_displays s tk).1 := by
  unfold Inv Service.restore_displays
  have hf := restore_config_fileP s.dc tk
  cases hok : (DisplayConfig.restore_config s.dc tk).ok <;>
    simp only [hok, if_true, if_false, Bool.false_eq_true] at hf <;>
    simp [hok, hf]
  exact h

theorem inv_switch_to_remote_mode (s : Svc) (c : Option KTopology)
    (dOk : Bool) (h : Inv s) : Inv (Service.switch_to_remote_mode s c dOk).1 := by
  unfold Inv Service.switch_to_remote_mode
  cases c <;> cases dOk <;>
    simp [DisplayConfig.save_current_config] <;> exact h

theorem inv_check_connections (s : Svc) (hc tk : Bool) (h : Inv s) :
    Inv (Service.check_connections s hc tk).1 := by
  unfold Service.check_connections
  by_cases h1 : (!s.enabled || s.state == State.DISABLED) = true
  · simpa [h1]
  · by_cases h2 : (s.state == State.IDLE && hc) = true
    · simp only [h1, h2]
      simpa [Inv] using h
    · by_cases h3 : (s.state == State.REMOTE_ACTIVE && !hc) = true
      · simp only [h1, h2, h3, Bool.false_eq_true, if_false, if_true]
        exact inv_restore_displays { s with state := State.RESTORING } tk (by simpa [Inv] using h)
      · simpa [h1, h2, h3]

theorem inv_on_debounce_complete (s : Svc) (hc : Bool) (c : Option KTopology)
    (dOk : Bool) (h : Inv s) : Inv (Service.on_debounce_complete s hc c dOk).1 := by
  unfold Service.on_debounce_complete
  by_cases h1 : s.state ≠ State.DETECTED
  · simpa [h1]
  · by_cases h2 : hc
    · simpa [h1, h2] using inv_switch_to_remote_mode s c dOk h
    · simpa [h1, h2, Inv] using h

theorem inv_step (s : Svc) (op : Op) (h : Inv s) : Inv (step s op) := by
  cases op with
  | pollTick hc tk => exact inv_check_connections s hc tk h
  | debounceFire hc c d => exact inv_on_debounce_complete s hc c d h
  | switchNow c d =>
    unfold step Service.SwitchNow
    by_cases h1 : s.state = State.IDLE
    · simpa [h1] using inv_switch_to_remote_mode s c d h
    · simpa [h1]
  | restoreNow tk =>
    unfold step Service.RestoreNow
    by_cases h1 : s.state = State.REMOTE_ACTIVE
    · simpa [h1] using inv_restore_displays s tk h
    · simpa [h1]
  | setEnabled b =>
    unfold step Service.SetEnabled
    simpa [Inv] using h

theorem inv_runFrom (ops : List Op) : ∀ s : Svc, Inv s → Inv (runFrom s ops) := by
  induction ops with
  | nil => intro s h; exact h
  | cons op rest ih =>
    intro s h
    have : runFrom s (op :: rest) = runFrom (step s op) rest := by
      simp [runFrom]
    rw [this]
    exact ih (step s op) (inv_step s op h)

theorem foldl_append_join {α β : Type} (f : α → List β) :
    ∀ (l : List α) (acc : List β),
      l.foldl (fun a x => a ++ f x) acc = acc ++ (l.map f).flatten := by
  intro l
  induction l with
  | nil => intro acc; simp
  | cons x rest ih => intro acc; simp [ih, List.append_assoc]

/-! ## Claim theorems -/

/-- C1 (counterexample): the claim says the durable state file is present
iff the daemon currently believes it has disabled the secondary output and
not yet restored it.  The run below — a connection is detected, the
debounce confirms it, the topology save succeeds (writing the state file),
and then disabling the secondary output FAILS, aborting back to `IDLE` —
ends with the daemon in `IDLE`, not believing it is in remote mode
(`IsRemoteActive` is false), yet the state file is still on disk.  -/
theorem c1_file_invariant_counterexample :
    ((run [Op.pollTick true true,
           Op.debounceFire true (some ⟨[⟨"HDMI-A-1", some ⟨0, -1080⟩, none⟩]⟩) false]).dc.fileP).isSome = true ∧
    Service.IsRemoteActive
      (run [Op.pollTick true true,
            Op.debounceFire true (some ⟨[⟨"HDMI-A-1", some ⟨0, -1080⟩, none⟩]⟩) false]) = false ∧
    (run [Op.pollTick true true,
          Op.debounceFire true (some ⟨[⟨"HDMI-A-1", some ⟨0, -1080⟩, none⟩]⟩) false]).state = State.IDLE := by
  decide

/-- C1 (amended): over every sequence of controller operations from the
initial state, the durable state file is present on disk exactly when a
topology save has succeeded with no successful restore since (the ghost
`pending` flag, set precisely at a successful save and cleared precisely at
a successful restore).  This covers `REMOTE_ACTIVE`, but also the
deliberate cases in which the daemon is back in `IDLE` with the file kept
for a later retry: a disable-failure abort and a failed restore. -/
theorem c1_file_iff_pending_restore (ops : List Op) :
    ((run ops).dc.fileP).isSome = (run ops).pending :=
  inv_runFrom ops init rfl

/-- C3 (counterexample): the claim says a failed capture leaves the
previously saved in-memory topology unchanged.  But `save_current_config`
assigns the capture result before testing it, so with a previously saved
topology in memory and a failing capture (empty result), the in-memory
saved config is overwritten with the empty capture. -/
theorem c3_save_counterexample :
    (DisplayConfig.save_current_config
      ⟨"HDMI-A-1",
       some (some ⟨[⟨"HDMI-A-1", some ⟨0, 0⟩, none⟩]⟩),
       some ⟨[⟨"HDMI-A-1", some ⟨0, 0⟩, none⟩]⟩⟩ none).1 = false ∧
    (DisplayConfig.save_current_config
      ⟨"HDMI-A-1",
       some (some ⟨[⟨"HDMI-A-1", some ⟨0, 0⟩, none⟩]⟩),
       some ⟨[⟨"HDMI-A-1", some ⟨0, 0⟩, none⟩]⟩⟩ none).2.saved ≠
      (⟨"HDMI-A-1",
        some (some ⟨[⟨"HDMI-A-1", some ⟨0, 0⟩, none⟩]⟩),
        some ⟨[⟨"HDMI-A-1", some ⟨0, 0⟩, none⟩]⟩⟩ : DCState).saved := by
  decide

/-- C3 (amended): `save_current_config` returns success iff the captured
document is truthy (non-empty); on success it stores the capture both in
memory and in the durable state file; on failure it returns failure and
leaves the durable file unchanged — but the in-memory saved topology is
overwritten with the empty capture (a falsy value, so a later restore
falls back to the durable file). -/
theorem c3_save_contract (d : DCState) (capture : Option KTopology) :
    ((DisplayConfig.save_current_config d capture).1 = capture.isSome) ∧
    (∀ t, capture = some t →
      (DisplayConfig.save_current_config d capture).2.saved = some (some t) ∧
      (DisplayConfig.save_current_config d capture).2.fileP = some t) ∧
    (capture = none →
      (DisplayConfig.save_current_config d capture).2.fileP = d.fileP ∧
      (DisplayConfig.save_current_config d capture).2.saved = some none) := by
  cases capture <;> simp [DisplayConfig.save_current_config]

/-- C3 (witness): the amended contract evaluated at a concrete state and a
successful capture. -/
theorem c3_save_contract_witness :
    ((DisplayConfig.save_current_config ⟨"HDMI-A-1", none, none⟩
        (some ⟨[⟨"HDMI-A-1", some ⟨0, 0⟩, none⟩]⟩)).1 =
      (some (⟨[⟨"HDMI-A-1", some ⟨0, 0⟩, none⟩]⟩ : KTopology)).isSome) ∧
    (∀ t, some (⟨[⟨"HDMI-A-1", some ⟨0, 0⟩, none⟩]⟩ : KTopology) = some t →
      (DisplayConfig.save_current_config ⟨"HDMI-A-1", none, none⟩
          (some ⟨[⟨"HDMI-A-1", some ⟨0, 0⟩, none⟩]⟩)).2.saved = some (some t) ∧
      (DisplayConfig.save_current_config ⟨"HDMI-A-1", none, none⟩
          (some ⟨[⟨"HDMI-A-1", some ⟨0, 0⟩, none⟩]⟩)).2.fileP = some t) ∧
    (some (⟨[⟨"HDMI-A-1", some ⟨0, 0⟩, none⟩]⟩ : KTopology) = none →
      (DisplayConfig.save_current_config ⟨"HDMI-A-1", none, none⟩
          (some ⟨[⟨"HDMI-A-1", some ⟨0, 0⟩, none⟩]⟩)).2.fileP =
        (⟨"HDMI-A-1", none, none⟩ : DCState).fileP ∧
      (DisplayConfig.save_current_config ⟨"HDMI-A-1", none, none⟩
          (some ⟨[⟨"HDMI-A-1", some ⟨0, 0⟩, none⟩]⟩)).2.saved = some none) :=
  c3_save_contract ⟨"HDMI-A-1", none, none⟩
    (some ⟨[⟨"HDMI-A-1", some ⟨0, 0⟩, none⟩]⟩)

/-- C6: calling `restore_config` with a falsy in-memory saved config and no
durable state file fails with the `noSavedTopology` condition, issues no
tool invocation, and leaves the state unchanged. -/
theorem c6_restore_no_saved (d : DCState) (toolOk : Bool)
    (hs : DisplayConfig.savedTruthy d.saved = false)
    (hfile : d.fileP = none) :
    DisplayConfig.restore_config d toolOk =
      ⟨false, some DisplayConfig.RestoreErr.noSavedTopology, [], d⟩ := by
  obtain ⟨sec, saved, fileP⟩ := d
  subst hfile
  rcases saved with _ | os
  · simp [DisplayConfig.restore_config]
  · rcases os with _ | t
    · simp [DisplayConfig.restore_config]
    · simp [DisplayConfig.savedTruthy] at hs

/-- C6 (witness): the second of two consecutive restores — nothing in
memory, nothing on disk — at a concrete state. -/
theorem c6_restore_no_saved_witness :
    (DisplayConfig.savedTruthy (⟨"HDMI-A-1", none, none⟩ : DCState).saved = false ∧
     (⟨"HDMI-A-1", none, none⟩ : DCState).fileP = none) ∧
    DisplayConfig.restore_config ⟨"HDMI-A-1", none, none⟩ true =
      ⟨false, some DisplayConfig.RestoreErr.noSavedTopology, [],
       ⟨"HDMI-A-1", none, none⟩⟩ :=
  ⟨⟨by decide, by decide⟩,
   c6_restore_no_saved ⟨"HDMI-A-1", none, none⟩ true (by decide) (by decide)⟩

/-- C8: `check_connections` is total (never raises), a failed per-port
lookup contributes the empty list, the `rdp` and `vnc` sequences are the
per-port results concatenated in port-iteration order with duplicates
unfiltered, `total` is the sum of the two lengths, and
`has_remote_connection` is true exactly when `total` is positive. -/
theorem c8_check_connections (lookup : Nat → Option String)
    (rdp_ports vnc_ports : List Nat) :
    ConnectionMonitor.check_port none = [] ∧
    (ConnectionMonitor.check_connections lookup rdp_ports vnc_ports).rdp =
      (rdp_ports.map (fun p => ConnectionMonitor.check_port (lookup p))).flatten ∧
    (ConnectionMonitor.check_connections lookup rdp_ports vnc_ports).vnc =
      (vnc_ports.map (fun p => ConnectionMonitor.check_port (lookup p))).flatten ∧
    (ConnectionMonitor.check_connections lookup rdp_ports vnc_ports).total =
      (ConnectionMonitor.check_connections lookup rdp_ports vnc_ports).rdp.length +
      (ConnectionMonitor.check_connections lookup rdp_ports vnc_ports).vnc.length ∧
    (ConnectionMonitor.has_remote_connection lookup rdp_ports vnc_ports = true ↔
      0 < (ConnectionMonitor.check_connections lookup rdp_ports vnc_ports).total) := by
  refine ⟨rfl, ?_, ?_, rfl, ?_⟩
  · simpa using foldl_append_join
      (fun p => ConnectionMonitor.check_port (lookup p)) rdp_ports []
  · simpa using foldl_append_join
      (fun p => ConnectionMonitor.check_port (lookup p)) vnc_ports []
  · simp [ConnectionMonitor.has_remote_connection]

/-- C9: `SetEnabled` acts identically from every state — including
`REMOTE_ACTIVE` and `SWITCHING`, and also when the requested value equals
the current one: `SetEnabled true` lands in `IDLE`, `SetEnabled false` in
`DISABLED`; the config is persisted with the new flag, and a `StateChanged`
then `EnabledChanged` notification are emitted. -/
theorem c9_set_enabled (s : Svc) (b : Bool) :
    (Service.SetEnabled s b).1.state =
      (if b then State.IDLE else State.DISABLED) ∧
    (Service.SetEnabled s b).1.enabled = b ∧
    (Service.SetEnabled s b).1.cfgFile =
      some ⟨b, s.dc.secondary_output, s.rdp_ports, s.vnc_ports⟩ ∧
    (Service.SetEnabled s b).2 =
      [Ev.stateChanged (if b then State.IDLE else State.DISABLED),
       Ev.configSaved, Ev.enabledChanged b] := by
  cases b <;> simp [Service.SetEnabled]

/-- The restore sequence ignores the state field it starts from (it
immediately overwrites it with `RESTORING`). -/
theorem restore_displays_state_irrel (s : Svc) (x : State) (tk : Bool) :
    Service.restore_displays { s with state := x } tk =
      Service.restore_displays s tk := by
  cases s
  rfl

/-- C2: saving a topology whose outputs contain the configured secondary
output (first match) with a saved position and current mode, then calling
`restore_config`, issues exactly one tool invocation whose directives are
exactly: enable the secondary, position it at the saved coordinates, and
set mode `WxH@int(refresh)`; on tool success the durable state file is
removed and the in-memory saved config is cleared. -/
theorem c2_save_restore_roundtrip (d : DCState) (T : KTopology)
    (o : KOutput) (p : KPos) (m : KMode)
    (hf : T.outputs.find? (fun u => u.name == d.secondary_output) = some o)
    (hp : o.pos = some p) (hm : o.currentMode = some m) :
    (DisplayConfig.save_current_config d (some T)).1 = true ∧
    (DisplayConfig.restore_config
        (DisplayConfig.save_current_config d (some T)).2 true).calls =
      [["output." ++ d.secondary_output ++ ".enable",
        "output." ++ d.secondary_output ++ ".position." ++
          toString p.x ++ "," ++ toString p.y,
        "output." ++ d.secondary_output ++ ".mode." ++
          toString m.width ++ "x" ++ toString m.height ++ "@" ++
          toString (pyInt m.refreshRate)]] ∧
    (DisplayConfig.restore_config
        (DisplayConfig.save_current_config d (some T)).2 true).ok = true ∧
    (DisplayConfig.restore_config
        (DisplayConfig.save_current_config d (some T)).2 true).post.fileP =
      none ∧
    (DisplayConfig.restore_config
        (DisplayConfig.save_current_config d (some T)).2 true).post.saved =
      none := by
  obtain ⟨sec, saved, fileP⟩ := d
  simp only [DisplayConfig.save_current_config] at hf ⊢
  simp [DisplayConfig.restore_config, DisplayConfig.restoreStage2, hf,
        DisplayConfig.restoreCommands, hp, hm]

/-- C2 (witness): the round trip evaluated at a concrete topology; the
directive strings are fully evaluated, with the refresh rate truncated
from 60 (a JSON `60.0`) to the integer `60`. -/
theorem c2_save_restore_roundtrip_witness :
    (DisplayConfig.save_current_config ⟨"HDMI-A-1", none, none⟩
        (some c2Topo)).1 = true ∧
    (DisplayConfig.restore_config
        (DisplayConfig.save_current_config ⟨"HDMI-A-1", none, none⟩
          (some c2Topo)).2 true).calls =
      [["output.HDMI-A-1.enable", "output.HDMI-A-1.position.0,-1080",
        "output.HDMI-A-1.mode.1920x1080@60"]] ∧
    (DisplayConfig.restore_config
        (DisplayConfig.save_current_config ⟨"HDMI-A-1", none, none⟩
          (some c2Topo)).2 true).ok = true ∧
    (DisplayConfig.restore_config
        (DisplayConfig.save_current_config ⟨"HDMI-A-1", none, none⟩
          (some c2Topo)).2 true).post.fileP = none ∧
    (DisplayConfig.restore_config
        (DisplayConfig.save_current_config ⟨"HDMI-A-1", none, none⟩
          (some c2Topo)).2 true).post.saved = none := by
  have h := c2_save_restore_roundtrip ⟨"HDMI-A-1", none, none⟩ c2Topo c2Out
    ⟨0, -1080⟩ ⟨1920, 1080, 60⟩ (by decide) (by decide) (by decide)
  refine ⟨h.1, ?_, h.2.2.1, h.2.2.2.1, h.2.2.2.2⟩
  rw [h.2.1]
  decide

/-- C4: every run of the restore sequence — as triggered by a poll tick
seeing the connection gone in `REMOTE_ACTIVE`, or by a manual
`RestoreNow` — passes through `RESTORING`, always calls `restore_config`,
always lands in `IDLE`, and always emits `RemoteModeChanged(False)`; when
the restore fails, the durable state file is left untouched. -/
theorem c4_restore_sequence (s : Svc) (toolOk : Bool) :
    (Service.restore_displays s toolOk).1.state = State.IDLE ∧
    Ev.stateChanged State.RESTORING ∈ (Service.restore_displays s toolOk).2 ∧
    Ev.calledRestoreConfig ∈ (Service.restore_displays s toolOk).2 ∧
    Ev.remoteModeChanged false ∈ (Service.restore_displays s toolOk).2 ∧
    ((DisplayConfig.restore_config s.dc toolOk).ok = false →
      (Service.restore_displays s toolOk).1.dc.fileP = s.dc.fileP) ∧
    (s.state = State.REMOTE_ACTIVE →
      Service.RestoreNow s toolOk = Service.restore_displays s toolOk) ∧
    (s.state = State.REMOTE_ACTIVE → s.enabled = true →
      Service.check_connections s false toolOk =
        ((Service.restore_displays s toolOk).1,
         Ev.stateChanged State.RESTORING ::
           (Service.restore_displays s toolOk).2)) := by
  refine ⟨rfl, ?_, ?_, ?_, ?_, ?_, ?_⟩
  · simp [Service.restore_displays]
  · simp [Service.restore_displays]
  · simp [Service.restore_displays]
  · intro hok
    have hf := restore_config_fileP s.dc toolOk
    rw [hok] at hf
    simp only [Bool.false_eq_true, if_false] at hf
    simpa [Service.restore_displays] using hf
  · intro h
    simp [Service.RestoreNow, h]
  · intro h he
    obtain ⟨st, en, dc, rp, vp, cf, pd⟩ := s
    simp only at h he
    subst h
    subst he
    rfl

/-- C4 (witness): the restore sequence at a concrete `REMOTE_ACTIVE` state
with a failing tool invocation: the controller still lands in `IDLE` and
the state file survives for a later retry. -/
theorem c4_restore_sequence_witness :
    (Service.restore_displays c4Svc false).1.state = State.IDLE ∧
    (Service.restore_displays c4Svc false).1.dc.fileP = c4Svc.dc.fileP :=
  ⟨(c4_restore_sequence c4Svc false).1,
   (c4_restore_sequence c4Svc false).2.2.2.2.1 (by decide)⟩

/-- C5: a debounce timer firing when the controller has left `DETECTED` is
a guaranteed no-op that does not repeat; firing in `DETECTED` with the
live connection re-check negative returns the state to `IDLE` without any
switch-sequence side effect (no topology save, no session termination, no
display disable, no tool invocation). -/
theorem c5_debounce_guard (s : Svc) (hasConn : Bool)
    (capture : Option KTopology) (disableOk : Bool) :
    (s.state ≠ State.DETECTED →
      Service.on_debounce_complete s hasConn capture disableOk =
        (s, [], false)) ∧
    (s.state = State.DETECTED → hasConn = false →
      Service.on_debounce_complete s hasConn capture disableOk =
        ({ s with state := State.IDLE },
         [Ev.stateChanged State.IDLE], false) ∧
      Ev.calledSaveConfig ∉
        (Service.on_debounce_complete s hasConn capture disableOk).2.1 ∧
      Ev.calledTerminateRdp ∉
        (Service.on_debounce_complete s hasConn capture disableOk).2.1 ∧
      Ev.calledTerminateVnc ∉
        (Service.on_debounce_complete s hasConn capture disableOk).2.1 ∧
      Ev.calledDisableSecondary ∉
        (Service.on_debounce_complete s hasConn capture disableOk).2.1 ∧
      ∀ cmds, Ev.toolInvoke cmds ∉
        (Service.on_debounce_complete s hasConn capture disableOk).2.1) := by
  constructor
  · intro h
    simp [Service.on_debounce_complete, h]
  · intro h1 h2
    subst h2
    simp [Service.on_debounce_complete, h1]

/-- C5 (witness): a fire in `DETECTED` with the connection gone, at a
concrete state: back to `IDLE`, a bare `StateChanged` trace, no repeat. -/
theorem c5_debounce_guard_witness :
    Service.on_debounce_complete c5Svc false none true =
      ({ c5Svc with state := State.IDLE },
       [Ev.stateChanged State.IDLE], false) :=
  ((c5_debounce_guard c5Svc false none true).2 rfl rfl).1

/-- C7: on the listing `Output: 1 HDMI-A-1 <uuid>` / `enabled` /
`priority 1` / a mode line containing `1920x1080@60.00*`, `GetDisplays`
returns exactly one record: name `HDMI-A-1`, enabled, primary, resolution
`1920x1080`, refresh rate `60`. -/
theorem c7_parser_example :
    GetDisplays
      ["Output: 1 HDMI-A-1 64f87a0f-8d5a-4b07-9c5e-2f1a88a7c21d",
       "enabled", "priority 1", "  1920x1080@60.00*"] =
      [⟨1, "HDMI-A-1", true, "1920x1080", "60", true⟩] := by
  decide

/-- A line that is neither `enabled` nor `disabled` leaves the record's
`enabled` field unchanged, whatever else it contains. -/
theorem updateDisplay_enabled (d : DisplayEntry) (ls : String)
    (h1 : ls ≠ "enabled") (h2 : ls ≠ "disabled") :
    (updateDisplay d ls).enabled = d.enabled := by
  unfold updateDisplay
  cases hsm : searchMode ls.toList <;> cases hsg : searchGeom ls.toList <;>
  by_cases hc : (pyContains ls "Modes:" || pyContains ls "@") = true <;>
  by_cases hg : pyStartsWith ls "Geometry:" <;>
    simp [h1, h2, hc, hg, hsm, hsg, apply_ite DisplayEntry.enabled]

/-- A line not starting with `priority 1` leaves the record's `primary`
field unchanged, whatever else it contains. -/
theorem updateDisplay_primary (d : DisplayEntry) (ls : String)
    (h3 : pyStartsWith ls "priority 1" = false) :
    (updateDisplay d ls).primary = d.primary := by
  unfold updateDisplay
  cases hsm : searchMode ls.toList <;> cases hsg : searchGeom ls.toList <;>
  by_cases hc : (pyContains ls "Modes:" || pyContains ls "@") = true <;>
  by_cases hg : pyStartsWith ls "Geometry:" <;>
    simp [h3, hc, hg, hsm, hsg, apply_ite DisplayEntry.primary]

/-- A line carrying no active-mode match and not starting with `Geometry:`
leaves resolution and refresh rate unchanged, whatever else it contains. -/
theorem updateDisplay_res_rr (d : DisplayEntry) (ls : String)
    (h4 : searchMode ls.toList = none)
    (h5 : pyStartsWith ls "Geometry:" = false) :
    (updateDisplay d ls).resolution = d.resolution ∧
    (updateDisplay d ls).refreshRate = d.refreshRate := by
  have h4d : searchMode ls.data = none := h4
  unfold updateDisplay
  by_cases hc : (pyContains ls "Modes:" || pyContains ls "@") = true <;>
    simp [h4d, h5, hc, apply_ite DisplayEntry.resolution,
          apply_ite DisplayEntry.refreshRate]

/-- On a block with no further `Output:` header, the loop produces exactly
the fold of the per-line update over the block. -/
theorem getDisplaysLoop_blockFold (B : List String) :
    ∀ (d : DisplayEntry) (acc : List DisplayEntry),
      (∀ l ∈ B, searchOutput (cleanLine l).toList = none) →
      getDisplaysLoop B (some d) acc = acc ++ [blockFold d B] := by
  induction B with
  | nil =>
    intro d acc _
    simp [getDisplaysLoop, blockFold]
  | cons l rest ih =>
    intro d acc hB
    have hl : searchOutput (cleanLine l).toList = none := hB l (by simp)
    have hrest : ∀ x ∈ rest, searchOutput (cleanLine x).toList = none :=
      fun x hx => hB x (by simp [hx])
    by_cases hemp : cleanLine l = ""
    · simp only [getDisplaysLoop, hemp, if_true]
      rw [ih d acc hrest]
      simp [blockFold, hemp]
    · simp only [getDisplaysLoop, hemp, if_false, hl]
      rw [ih (updateDisplay d (cleanLine l)) acc hrest]
      simp [blockFold, hemp]

/-- Unfolding one block line of the fold. -/
theorem blockFold_cons (d : DisplayEntry) (l : String) (B : List String) :
    blockFold d (l :: B) =
      blockFold (if cleanLine l = "" then d
                 else updateDisplay d (cleanLine l)) B := rfl

/-- A block with no `enabled` and no `disabled` line preserves the
`enabled` field across the fold. -/
theorem blockFold_enabled (B : List String) :
    ∀ d : DisplayEntry,
      (∀ l ∈ B, cleanLine l ≠ "enabled" ∧ cleanLine l ≠ "disabled") →
      (blockFold d B).enabled = d.enabled := by
  induction B with
  | nil => intro d _; rfl
  | cons l rest ih =>
    intro d hB
    have hl := hB l (by simp)
    have hrest : ∀ x ∈ rest, cleanLine x ≠ "enabled" ∧ cleanLine x ≠ "disabled" :=
      fun x hx => hB x (by simp [hx])
    rw [blockFold_cons]
    by_cases hemp : cleanLine l = ""
    · simp only [hemp, if_true]
      exact ih d hrest
    · simp only [hemp, if_false]
      rw [ih (updateDisplay d (cleanLine l)) hrest]
      exact updateDisplay_enabled d (cleanLine l) hl.1 hl.2

/-- A block with no line starting with `priority 1` preserves the
`primary` field across the fold. -/
theorem blockFold_primary (B : List String) :
    ∀ d : DisplayEntry,
      (∀ l ∈ B, pyStartsWith (cleanLine l) "priority 1" = false) →
      (blockFold d B).primary = d.primary := by
  induction B with
  | nil => intro d _; rfl
  | cons l rest ih =>
    intro d hB
    have hl := hB l (by simp)
    have hrest : ∀ x ∈ rest, pyStartsWith (cleanLine x) "priority 1" = false :=
      fun x hx => hB x (by simp [hx])
    rw [blockFold_cons]
    by_cases hemp : cleanLine l = ""
    · simp only [hemp, if_true]
      exact ih d hrest
    · simp only [hemp, if_false]
      rw [ih (updateDisplay d (cleanLine l)) hrest]
      exact updateDisplay_primary d (cleanLine l) hl

/-- A block with no active-mode match and no `Geometry:` line preserves
resolution and refresh rate across the fold. -/
theorem blockFold_res_rr (B : List String) :
    ∀ d : DisplayEntry,
      (∀ l ∈ B, searchMode (cleanLine l).toList = none ∧
        pyStartsWith (cleanLine l) "Geometry:" = false) →
      (blockFold d B).resolution = d.resolution ∧
      (blockFold d B).refreshRate = d.refreshRate := by
  induction B with
  | nil => intro d _; exact ⟨rfl, rfl⟩
  | cons l rest ih =>
    intro d hB
    have hl := hB l (by simp)
    have hrest : ∀ x ∈ rest, searchMode (cleanLine x).toList = none ∧
        pyStartsWith (cleanLine x) "Geometry:" = false :=
      fun x hx => hB x (by simp [hx])
    rw [blockFold_cons]
    by_cases hemp : cleanLine l = ""
    · simp only [hemp, if_true]
      exact ih d hrest
    · simp only [hemp, if_false]
      have hu := updateDisplay_res_rr d (cleanLine l) hl.1 hl.2
      have hi := ih (updateDisplay d (cleanLine l)) hrest
      exact ⟨hi.1.trans hu.1, hi.2.trans hu.2⟩

/-- C10: for any output block (the lines after its `Output:` header, with
no further header), `GetDisplays` reports the record obtained by folding
the per-line update over the block, and each field keeps its header-line
default under its own condition: `enabled` stays true whenever the block
contains neither an `enabled` nor a `disabled` line; `primary` stays false
whenever no line starts with `priority 1`; resolution and refresh rate
stay empty whenever no line carries an active-mode marker and no line
starts with `Geometry:`. -/
theorem c10_parser_defaults (hdr : String) (i : Nat) (nm : String)
    (B : List String)
    (hh : cleanLine hdr ≠ "")
    (hs : searchOutput (cleanLine hdr).toList = some (i, nm))
    (hB : ∀ l ∈ B, searchOutput (cleanLine l).toList = none) :
    GetDisplays (hdr :: B) = [blockFold ⟨i, nm, true, "", "", false⟩ B] ∧
    ((∀ l ∈ B, cleanLine l ≠ "enabled" ∧ cleanLine l ≠ "disabled") →
      (blockFold ⟨i, nm, true, "", "", false⟩ B).enabled = true) ∧
    ((∀ l ∈ B, pyStartsWith (cleanLine l) "priority 1" = false) →
      (blockFold ⟨i, nm, true, "", "", false⟩ B).primary = false) ∧
    ((∀ l ∈ B, searchMode (cleanLine l).toList = none ∧
       pyStartsWith (cleanLine l) "Geometry:" = false) →
      (blockFold ⟨i, nm, true, "", "", false⟩ B).resolution = "" ∧
      (blockFold ⟨i, nm, true, "", "", false⟩ B).refreshRate = "") := by
  refine ⟨?_, ?_, ?_, ?_⟩
  · unfold GetDisplays
    simp only [getDisplaysLoop, hh, if_false, hs]
    exact getDisplaysLoop_blockFold B ⟨i, nm, true, "", "", false⟩ [] hB
  · intro h
    exact blockFold_enabled B ⟨i, nm, true, "", "", false⟩ h
  · intro h
    exact blockFold_primary B ⟨i, nm, true, "", "", false⟩ h
  · intro h
    exact blockFold_res_rr B ⟨i, nm, true, "", "", false⟩ h

/-- C10 (witness): a block containing a `priority 1` line and a mode list
with no active-mode marker: `enabled` keeps its default true even though
the block is not otherwise empty of markers, and resolution and refresh
rate stay empty. -/
theorem c10_parser_defaults_witness :
    GetDisplays
      ["Output: 3 DP-2 11bb22cc", "priority 1",
       "Modes: 1:1920x1080@60.00 2:1280x720@60.00"] =
      [blockFold ⟨3, "DP-2", true, "", "", false⟩
        ["priority 1", "Modes: 1:1920x1080@60.00 2:1280x720@60.00"]] ∧
    (blockFold ⟨3, "DP-2", true, "", "", false⟩
      ["priority 1", "Modes: 1:1920x1080@60.00 2:1280x720@60.00"]).enabled =
      true ∧
    (blockFold ⟨3, "DP-2", true, "", "", false⟩
      ["priority 1", "Modes: 1:1920x1080@60.00 2:1280x720@60.00"]).resolution =
      "" ∧
    (blockFold ⟨3, "DP-2", true, "", "", false⟩
      ["priority 1", "Modes: 1:1920x1080@60.00 2:1280x720@60.00"]).refreshRate =
      "" := by
  have h := c10_parser_defaults "Output: 3 DP-2 11bb22cc" 3 "DP-2"
    ["priority 1", "Modes: 1:1920x1080@60.00 2:1280x720@60.00"]
    (by decide) (by decide) (by decide)
  exact ⟨h.1, h.2.1 (by decide), (h.2.2.2 (by decide)).1,
         (h.2.2.2 (by decide)).2⟩

end RdpDisplay
